import Mathlib

/-!
# ExpiryTracker — verification of the realtime reconciliation & notification core

Shallow embedding of the client-side core of the ExpiryTracker repository:

* `utils.js` — `daysUntilExpiry`, `getExpiryStatus` (the DateStatus component);
* `dashboard.js` — `handleRealtimeChange` (the ItemStore mutations applied by
  the change-feed reconciler: INSERT / UPDATE / DELETE), `loadItems`,
  `handleImport`;
* `notifications.js` — `showNotification`, `checkExpiringItems`
  (the NotificationScheduler scan).

Dates are modelled as `Int` milliseconds since the epoch (the value of a JS
`Date`); `setHours(0,0,0,0)` becomes flooring to a multiple of a day, and
`Math.ceil` of a millisecond quotient becomes a ceiling division on `Int`.
Items are records of the fields the claims touch; the in-memory `items` array
is a `List Item`.
-/

set_option autoImplicit false

namespace ExpiryTracker

/-- Milliseconds per day: `1000 * 60 * 60 * 24` in `daysUntilExpiry`. -/
def msPerDay : Int := 1000 * 60 * 60 * 24

/-- Model of `setHours(0, 0, 0, 0)`: zero the time-of-day component, i.e. floor the
timestamp to midnight of its calendar day. Division on `Int` floors toward
negative infinity, matching calendar flooring also for pre-epoch timestamps. -/
def normalize (t : Int) : Int := msPerDay * (t / msPerDay)

/-- Ceiling division, `Math.ceil (a / b)` for integer `a` and positive integer `b`. -/
def ceilDiv (a b : Int) : Int := -((-a) / b)

/-- Function `daysUntilExpiry(expiryDate)` from `utils.js`: both `today` (the clock,
here an explicit parameter) and `expiry` are normalized to midnight, the
difference in milliseconds is divided by one day and rounded up. -/
def daysUntilExpiry (expiry today : Int) : Int :=
  ceilDiv (normalize expiry - normalize today) msPerDay

/-- The status values returned by `getExpiryStatus` in `utils.js`. The spec's
tier names map onto them as EXPIRED = `expired`, DUE_TODAY = `today`,
SOON = `soon`, UPCOMING = `warning`, OK = `good`. -/
inductive Status where
  | expired
  | today
  | soon
  | warning
  | good
  deriving DecidableEq, Repr

/-- Function `getExpiryStatus(expiryDate)` from `utils.js` (the clock `today` is an
explicit parameter): classify by `daysUntilExpiry`. -/
def getExpiryStatus (expiry today : Int) : Status :=
  let days := daysUntilExpiry expiry today
  if days < 0 then .expired
  else if days = 0 then .today
  else if days ≤ 7 then .soon
  else if days ≤ 30 then .warning
  else .good

/-- One row of `expiry_items` as the dashboard holds it in the `items` array;
only the fields the claims inspect are modelled. -/
structure Item where
  id : String
  name : String
  expiry_date : Int
  quantity : Int
  deriving DecidableEq, Repr

/-- The ids of the items in a store state. -/
def ids (s : List Item) : List String := s.map Item.id

/-- The INSERT case of `handleRealtimeChange` in `dashboard.js`:
`items.push(newRecord)` — the record is appended unconditionally. -/
def applyInsert (items : List Item) (newRecord : Item) : List Item :=
  items ++ [newRecord]

/-- The UPDATE case of `handleRealtimeChange` in `dashboard.js`:
`items.findIndex(item => item.id === newRecord.id)` followed by the
assignment `items[updateIndex] = newRecord` when the index is not `-1` — replace the
first element whose id matches, leave the array unchanged otherwise. -/
def applyUpdate : List Item → Item → List Item
  | [], _ => []
  | x :: xs, newRecord =>
      if x.id = newRecord.id then newRecord :: xs
      else x :: applyUpdate xs newRecord

/-- The DELETE case of `handleRealtimeChange` in `dashboard.js`:
`items = items.filter(item => item.id !== oldRecord.id)`. -/
def applyDelete (items : List Item) (oldId : String) : List Item :=
  items.filter (fun item => item.id ≠ oldId)

/-- The `findIndex`/assignment form of the UPDATE case, stated with
`List.findIdx?` and `List.set`; proved equal to `applyUpdate` below so the
recursive form can be audited against `dashboard.js` directly. -/
def applyUpdateIdx (items : List Item) (newRecord : Item) : List Item :=
  match items.findIdx? (fun item => item.id = newRecord.id) with
  | none => items
  | some updateIndex => items.set updateIndex newRecord

theorem applyUpdate_eq_applyUpdateIdx (s : List Item) (n : Item) :
    applyUpdate s n = applyUpdateIdx s n := by
  induction s with
  | nil => rfl
  | cons x xs ih =>
      by_cases h : x.id = n.id
      · simp [applyUpdate, applyUpdateIdx, List.findIdx?_cons, h]
      · simp only [applyUpdate, applyUpdateIdx, List.findIdx?_cons, h,
          if_neg, if_false, ih]
        cases hfi : xs.findIdx? (fun item => item.id = n.id) with
        | none => simp [applyUpdateIdx, hfi]
        | some k => simp [applyUpdateIdx, hfi, List.set_cons_succ]

/-- One store operation, as driven by `loadItems` (full replace of `items`
with the rows the remote returned) or by one `handleRealtimeChange` event. -/
inductive Op where
  | load (rows : List Item)
  | insert (newRecord : Item)
  | update (newRecord : Item)
  | delete (oldId : String)
  deriving DecidableEq, Repr

/-- Apply one operation to the `items` array, as `loadItems` and
`handleRealtimeChange` do. -/
def applyOp (s : List Item) : Op → List Item
  | .load rows => rows
  | .insert n => applyInsert s n
  | .update n => applyUpdate s n
  | .delete oldId => applyDelete s oldId

/-- Apply a sequence of operations in order, starting from `s`. -/
def applyOps (s : List Item) (ops : List Op) : List Item :=
  ops.foldl applyOp s

/-- Well-formedness of an operation sequence relative to the evolving state:
every applied INSERT carries an id not currently in the store, and every full
load delivers rows with pairwise-distinct ids. -/
def wf : List Item → List Op → Bool
  | _, [] => true
  | s, op :: ops =>
      (match op with
        | .insert n => decide (n.id ∉ ids s)
        | .load rows => decide (rows.map Item.id).Nodup
        | _ => true)
      && wf (applyOp s op) ops

/-- The snapshot ordering rule of the spec: ascending `expiry_date`, ties
broken by `id`. -/
def snapshotLe (x y : Item) : Prop :=
  x.expiry_date < y.expiry_date ∨
    (x.expiry_date = y.expiry_date ∧ x.id ≤ y.id)

instance : DecidableRel snapshotLe := fun x y => by
  unfold snapshotLe; infer_instance

/-- A store state sorted by the snapshot ordering rule. -/
def sortedSnapshot (s : List Item) : Prop := s.Pairwise snapshotLe

instance (s : List Item) : Decidable (sortedSnapshot s) :=
  inferInstanceAs (Decidable (s.Pairwise snapshotLe))

/-! ## NotificationScheduler (`notifications.js`)

Function `checkExpiringItems` computes `daysUntilExpiry` for every fetched item
and calls `showNotification` when `days` is exactly `0`, `3` or `7`;
`showNotification` constructs a `Notification` unless permission is not
granted. One emitted alert is modelled by the `(item.id, threshold)` pair it
reports on (the browser tag, `expiry-` followed by the item id, is derived
from the first component alone). -/

/-- The alert `checkExpiringItems` emits for one item at one scan instant:
the chain `if days === 0 / else if days === 3 / else if days === 7`. -/
def alertOf (item : Item) (today : Int) : Option (String × Int) :=
  let days := daysUntilExpiry item.expiry_date today
  if days = 0 then some (item.id, 0)
  else if days = 3 then some (item.id, 3)
  else if days = 7 then some (item.id, 7)
  else none

/-- One `checkExpiringItems` run over the fetched items at scan instant
`today`: the alerts handed to `showNotification`, which drops them all when
permission is not granted. -/
def scanOnce (granted : Bool) (items : List Item) (today : Int) :
    List (String × Int) :=
  if granted then items.filterMap (fun item => alertOf item today) else []

/-- A process lifetime of repeated timer-driven scans at the given instants
over an unchanging item set: all alerts emitted, in order. The code keeps no
per-(item, threshold) state between scans. -/
def runScans (granted : Bool) (items : List Item) (scans : List Int) :
    List (String × Int) :=
  scans.flatMap (fun today => scanOnce granted items today)

/-! ## Import (`handleImport` in `dashboard.js`) -/

/-- One record of the parsed import document; `quantity` is `none` when the
field is absent (JS `undefined`). -/
structure ImportedItem where
  name : String
  category : String
  quantity : Option Int
  expiry_date : Int
  notes : String
  deriving DecidableEq, Repr

/-- One row sent to the remote insert by `handleImport`. -/
structure InsertRow where
  name : String
  category : String
  quantity : Int
  expiry_date : Int
  notes : String
  user_id : String
  deriving DecidableEq, Repr

/-- The per-record mapping in `handleImport`: the quantity field becomes
`item.quantity || 1` (a missing or zero quantity is replaced by `1`, since
both are falsy) and the user_id field becomes `currentUser.id`. -/
def importRecord (userId : String) (item : ImportedItem) : InsertRow :=
  { name := item.name
    category := item.category
    quantity :=
      match item.quantity with
      | none => 1
      | some q => if q = 0 then 1 else q
    expiry_date := item.expiry_date
    notes := item.notes
    user_id := userId }

/-- The mapping `importedItems.map(...)` in `handleImport`. -/
def itemsToInsert (userId : String) (importedItems : List ImportedItem) :
    List InsertRow :=
  importedItems.map (importRecord userId)

/-- The parsed import payload: `JSON.parse` gave an array of records, or
anything else (`Array.isArray` is false). -/
inductive ImportPayload where
  | arr (importedItems : List ImportedItem)
  | notArray
  deriving Repr

/-- Toast kinds used by `showToast` on the import paths. -/
inductive ToastKind where
  | success
  | error
  deriving DecidableEq, Repr

/-- The try block of `handleImport`: a non-array payload throws the error
message Invalid data format before the remote insert; an array payload maps the
records and performs one remote insert, then reports success. -/
def importBody (payload : ImportPayload) (userId : String) :
    Except String (List (List InsertRow) × ToastKind) :=
  match payload with
  | .notArray => .error "Invalid data format"
  | .arr importedItems =>
      .ok ([itemsToInsert userId importedItems], .success)

/-- The observable outcome of `handleImport`: the local `items` array (which
the function never touches — realtime events repopulate it), the remote
insert calls made, and the toast shown. -/
structure ImportOutcome where
  items : List Item
  remoteInserts : List (List InsertRow)
  toast : ToastKind
  deriving Repr

/-- Function `handleImport` in `dashboard.js`: run the `try` block; the catch turns
any thrown error into an error toast with no remote call made. -/
def handleImport (payload : ImportPayload) (userId : String)
    (items : List Item) : ImportOutcome :=
  match importBody payload userId with
  | .error _ => { items := items, remoteInserts := [], toast := .error }
  | .ok (calls, t) => { items := items, remoteInserts := calls, toast := t }

/-! ## Helper lemmas -/

theorem msPerDay_val : msPerDay = 86400000 := by norm_num [msPerDay]

theorem daysUntilExpiry_eq (e t : Int) :
    daysUntilExpiry e t = e / msPerDay - t / msPerDay := by
  simp only [daysUntilExpiry, ceilDiv, normalize, msPerDay_val]
  omega

theorem ids_applyUpdate (s : List Item) (n : Item) :
    ids (applyUpdate s n) = ids s := by
  induction s with
  | nil => rfl
  | cons x xs ih =>
      by_cases h : x.id = n.id
      · simp [applyUpdate, ids, h]
      · simp only [applyUpdate, if_neg h]
        simpa [ids] using ih

theorem wf_nodup_from (ops : List Op) :
    ∀ s : List Item, (ids s).Nodup → wf s ops = true →
      (ids (applyOps s ops)).Nodup := by
  induction ops with
  | nil => intro s hs _; simpa [applyOps] using hs
  | cons op ops ih =>
      intro s hs hwf
      have hsplit : applyOps s (op :: ops) = applyOps (applyOp s op) ops := by
        simp [applyOps]
      rw [hsplit]
      simp only [wf, Bool.and_eq_true] at hwf
      obtain ⟨hok, hrest⟩ := hwf
      refine ih (applyOp s op) ?_ hrest
      cases op with
      | load rows => simpa [applyOp, ids] using of_decide_eq_true hok
      | insert n =>
          have hn : n.id ∉ ids s := of_decide_eq_true hok
          have heq : ids (applyOp s (.insert n)) = ids s ++ [n.id] := by
            simp [applyOp, applyInsert, ids]
          rw [heq, List.nodup_append]
          refine ⟨hs, List.nodup_singleton _, ?_⟩
          intro a ha hb
          simp only [List.mem_singleton] at hb
          exact hn (hb ▸ ha)
      | update n =>
          have heq : ids (applyOp s (.update n)) = ids s := ids_applyUpdate s n
          rw [heq]; exact hs
      | delete oldId =>
          exact ((List.filter_sublist s).map Item.id).nodup hs

theorem runScans_cons (g : Bool) (items : List Item) (t : Int) (ts : List Int) :
    runScans g items (t :: ts) = scanOnce g items t ++ runScans g items ts := by
  simp [runScans]

theorem scanOnce_single (i : Item) (t : Int) :
    scanOnce true [i] t = (alertOf i t).toList := by
  cases h : alertOf i t <;> simp [scanOnce, h]

/-! ## The claims -/

/-- C1, counterexample: `applyInsert` is not idempotent — applying the INSERT
of an item whose id is already present is not a no-op; applying the same
`applyInsert` twice to the empty store yields a different snapshot (two
copies) than applying it once. -/
theorem C1_insert_not_idempotent_cex :
    applyInsert (applyInsert [] ⟨"a", "Milk", 0, 1⟩) ⟨"a", "Milk", 0, 1⟩ ≠
      applyInsert [] ⟨"a", "Milk", 0, 1⟩ := by
  decide

/-- C1, amended: `applyInsert` performs no duplicate-id check — it appends the
record unconditionally, so applying it a second time appends a second copy:
the twice-applied snapshot is the once-applied snapshot with the item appended
again, and never equals it. -/
theorem C1_insert_appends_again (s : List Item) (i : Item) :
    applyInsert (applyInsert s i) i = applyInsert s i ++ [i] ∧
    applyInsert (applyInsert s i) i ≠ applyInsert s i := by
  refine ⟨rfl, ?_⟩
  intro h
  have hlen := congrArg List.length h
  simp [applyInsert] at hlen

/-- C2, counterexample: starting from the empty store, the sequence of two
INSERT events for the same id leaves two items with that id in the
collection, violating the id-uniqueness invariant. -/
theorem C2_unique_id_cex :
    ¬ (ids (applyOps []
        [.insert ⟨"a", "Milk", 0, 1⟩, .insert ⟨"a", "Milk", 0, 1⟩])).Nodup := by
  decide

/-- C2, amended: after any sequence of loadAll / applyInsert / applyUpdate /
applyDelete operations starting from the empty store, the item collection
contains at most one item per id, provided every applied INSERT carries an id
not currently present and every loadAll payload has pairwise-distinct ids
(the INSERT case performs no duplicate check of its own). -/
theorem C2_unique_ids_of_wf (ops : List Op) (h : wf [] ops = true) :
    (ids (applyOps [] ops)).Nodup :=
  wf_nodup_from ops [] (by simp [ids]) h

/-- C2, witness: a concrete well-formed sequence of all four operation kinds
yields a duplicate-free collection. -/
theorem C2_unique_ids_of_wf_witness :
    wf [] [.load [⟨"a", "Milk", 5, 1⟩, ⟨"b", "Jam", 3, 1⟩],
           .insert ⟨"c", "Egg", 9, 1⟩, .update ⟨"a", "Milk", 7, 2⟩,
           .delete "b"] = true ∧
    (ids (applyOps [] [.load [⟨"a", "Milk", 5, 1⟩, ⟨"b", "Jam", 3, 1⟩],
           .insert ⟨"c", "Egg", 9, 1⟩, .update ⟨"a", "Milk", 7, 2⟩,
           .delete "b"])).Nodup :=
  ⟨by decide, C2_unique_ids_of_wf _ (by decide)⟩

/-- C3, counterexample: applying an UPDATE event carrying an item whose id is
not present does not behave as an insert — on the empty store the resulting
snapshot contains zero items with that id, not exactly one. -/
theorem C3_update_missing_id_cex :
    ((applyUpdate [] ⟨"y", "Jam", 0, 1⟩).filter
        (fun i => i.id = "y")).length ≠ 1 := by
  decide

/-- C3, amended: applying an UPDATE event carrying an item whose id is not
present in the store is a no-op (there is no self-healing insert): the store
is left exactly unchanged. -/
theorem C3_update_missing_id_noop (s : List Item) (n : Item)
    (h : n.id ∉ ids s) : applyUpdate s n = s := by
  induction s with
  | nil => rfl
  | cons x xs ih =>
      simp only [ids, List.map_cons, List.mem_cons] at h
      push_neg at h
      have h1 : x.id ≠ n.id := Ne.symm h.1
      have h2 : n.id ∉ ids xs := by simpa [ids] using h.2
      simp only [applyUpdate, if_neg h1]
      rw [ih h2]

/-- C3, witness: updating id `y` in a store that only holds id `a` changes
nothing. -/
theorem C3_update_missing_id_noop_witness :
    ("y" ∉ ids [⟨"a", "Milk", 0, 1⟩]) ∧
    applyUpdate [⟨"a", "Milk", 0, 1⟩] ⟨"y", "Jam", 0, 1⟩ =
      [⟨"a", "Milk", 0, 1⟩] :=
  ⟨by decide, C3_update_missing_id_noop _ ⟨"y", "Jam", 0, 1⟩ (by decide)⟩

/-- C4, counterexample: the sortedness invariant does not survive an applied
INSERT event — from a sorted one-item store, the INSERT of an item with an
earlier expiry date is appended at the end, leaving the snapshot unsorted. -/
theorem C4_sortedness_cex :
    sortedSnapshot [⟨"a", "Milk", 5, 1⟩] ∧
    ¬ sortedSnapshot
        (applyOp [⟨"a", "Milk", 5, 1⟩] (.insert ⟨"b", "Jam", 3, 1⟩)) := by
  constructor <;> decide

/-- C4, amended: the snapshot is sorted by expiry date only as initially
loaded (the load query orders by `expiry_date`; INSERT appends at the end and
UPDATE replaces in place, neither re-sorts); of the applied events only
DELETE preserves sortedness of the snapshot. -/
theorem C4_delete_preserves_sorted (s : List Item) (oldId : String)
    (h : sortedSnapshot s) : sortedSnapshot (applyDelete s oldId) :=
  h.sublist (List.filter_sublist s)

/-- C4, witness: deleting from a concrete sorted two-item store keeps the
snapshot sorted. -/
theorem C4_delete_preserves_sorted_witness :
    sortedSnapshot [⟨"b", "Jam", 3, 1⟩, ⟨"a", "Milk", 5, 1⟩] ∧
    sortedSnapshot (applyDelete [⟨"b", "Jam", 3, 1⟩, ⟨"a", "Milk", 5, 1⟩] "b") :=
  ⟨by decide, C4_delete_preserves_sorted _ "b" (by decide)⟩

/-- C5, counterexample: alerts are not deduplicated per (item, threshold) —
two scans that both observe `daysRemaining = 7` for the same item emit two
alerts for that pair, not at most one. -/
theorem C5_alert_dedup_cex :
    ¬ (List.count ("a", 7)
        (runScans true [⟨"a", "Milk", 7 * 86400000, 1⟩] [0, 0]) ≤ 1) := by
  decide

/-- C5, amended: the scheduler keeps no per-(item, threshold) fired state;
with permission granted, every scan that observes `daysRemaining` equal to a
threshold re-emits the alert, so the number of alerts emitted for an
(item, threshold) pair equals the number of scan instants at which the item
reports that threshold. -/
theorem C5_alert_count_eq_scan_count (i : Item) (thr : Int)
    (scans : List Int) :
    List.count (i.id, thr) (runScans true [i] scans)
      = (scans.filter
          (fun t => decide (alertOf i t = some (i.id, thr)))).length := by
  induction scans with
  | nil => rfl
  | cons t ts ih =>
      rw [runScans_cons, List.count_append, scanOnce_single, List.filter_cons]
      by_cases h : alertOf i t = some (i.id, thr)
      · simp [h, ih, List.count_cons]
        omega
      · cases ha : alertOf i t with
        | none => simp [ha, ih, h]
        | some p =>
            have hp : p ≠ (i.id, thr) := by
              intro hcon; exact h (by rw [ha, hcon])
            have hb : ¬ decide (alertOf i t = some (i.id, thr)) = true := by
              simpa using h
            simp [ha, ih, List.count_cons, hp, hb]

/-- C6: the classification tier is determined by `daysRemaining`: negative
values give `expired` (EXPIRED), 0 gives `today` (DUE_TODAY), 1–7 give `soon`
(SOON), 8–30 give `warning` (UPCOMING), and values above 30 give `good`
(OK). -/
theorem C6_tier_boundaries (e t : Int) :
    (daysUntilExpiry e t < 0 → getExpiryStatus e t = .expired) ∧
    (daysUntilExpiry e t = 0 → getExpiryStatus e t = .today) ∧
    (1 ≤ daysUntilExpiry e t ∧ daysUntilExpiry e t ≤ 7 →
      getExpiryStatus e t = .soon) ∧
    (8 ≤ daysUntilExpiry e t ∧ daysUntilExpiry e t ≤ 30 →
      getExpiryStatus e t = .warning) ∧
    (30 < daysUntilExpiry e t → getExpiryStatus e t = .good) := by
  unfold getExpiryStatus
  dsimp only
  split_ifs with h1 h2 h3 h4 <;>
    refine ⟨?_, ?_, ?_, ?_, ?_⟩ <;> intro h <;> first | rfl | omega

/-- C6, witness: the boundary values -1, 0, 1, 7, 8, 30 and 31 days (with
`today = 0` and expiry at day multiples) classify as the claim states. -/
theorem C6_tier_boundaries_witness :
    getExpiryStatus (-86400000) 0 = .expired ∧
    getExpiryStatus 0 0 = .today ∧
    getExpiryStatus 86400000 0 = .soon ∧
    getExpiryStatus (7 * 86400000) 0 = .soon ∧
    getExpiryStatus (8 * 86400000) 0 = .warning ∧
    getExpiryStatus (30 * 86400000) 0 = .warning ∧
    getExpiryStatus (31 * 86400000) 0 = .good :=
  ⟨(C6_tier_boundaries _ 0).1 (by decide),
   (C6_tier_boundaries _ 0).2.1 (by decide),
   (C6_tier_boundaries _ 0).2.2.1 ⟨by decide, by decide⟩,
   (C6_tier_boundaries _ 0).2.2.1 ⟨by decide, by decide⟩,
   (C6_tier_boundaries _ 0).2.2.2.1 ⟨by decide, by decide⟩,
   (C6_tier_boundaries _ 0).2.2.2.1 ⟨by decide, by decide⟩,
   (C6_tier_boundaries _ 0).2.2.2.2 (by decide)⟩

/-- C7: `daysUntilExpiry` is the ceiling of the normalized date difference
divided by one day; it decreases by exactly one (so strictly decreases) as
today advances by a whole day, and is 0 exactly when the two normalized
dates are the same calendar day. -/
theorem C7_daysRemaining_spec (e t : Int) :
    daysUntilExpiry e t = ceilDiv (normalize e - normalize t) msPerDay ∧
    daysUntilExpiry e (t + msPerDay) = daysUntilExpiry e t - 1 ∧
    (daysUntilExpiry e t = 0 ↔ normalize e = normalize t) := by
  refine ⟨rfl, ?_, ?_⟩
  · rw [daysUntilExpiry_eq, daysUntilExpiry_eq]
    simp only [msPerDay_val]
    omega
  · rw [daysUntilExpiry_eq]
    simp only [normalize, msPerDay_val]
    omega

/-- C7, witness: with expiry one second into day 7 and a clock three hours
into day 0, the count is 7; advancing the clock one day gives 6; the count
at equal days is 0. -/
theorem C7_daysRemaining_spec_witness :
    daysUntilExpiry (7 * 86400000 + 1000) 10800000 =
      ceilDiv (normalize (7 * 86400000 + 1000) - normalize 10800000) msPerDay ∧
    daysUntilExpiry (7 * 86400000 + 1000) (10800000 + msPerDay) =
      daysUntilExpiry (7 * 86400000 + 1000) 10800000 - 1 ∧
    (daysUntilExpiry (7 * 86400000 + 1000) 10800000 = 0 ↔
      normalize (7 * 86400000 + 1000) = normalize 10800000) :=
  C7_daysRemaining_spec (7 * 86400000 + 1000) 10800000

/-- C8: every record produced by the import mapping carries the current
user's identity as `user_id`, and every imported record lacking a quantity
field is mapped to quantity 1. -/
theorem C8_import_normalization (u : String) (l : List ImportedItem) :
    (∀ r ∈ itemsToInsert u l, r.user_id = u) ∧
    (∀ item ∈ l, item.quantity = none → (importRecord u item).quantity = 1) := by
  constructor
  · intro r hr
    simp only [itemsToInsert, List.mem_map] at hr
    obtain ⟨item, _, rfl⟩ := hr
    rfl
  · intro item _ hq
    simp [importRecord, hq]

/-- C8, witness: importing two concrete records lacking `quantity` under user
`u1` stores both with `user_id = u1` and `quantity = 1`. -/
theorem C8_import_normalization_witness :
    (importRecord "u1" ⟨"Jam", "food", none, 0, ""⟩).user_id = "u1" ∧
    (importRecord "u1" ⟨"Jam", "food", none, 0, ""⟩).quantity = 1 ∧
    (importRecord "u1" ⟨"Tea", "drink", none, 5, ""⟩).quantity = 1 :=
  ⟨(C8_import_normalization "u1" [⟨"Jam", "food", none, 0, ""⟩]).1 _
      (by simp [itemsToInsert]),
   (C8_import_normalization "u1" [⟨"Jam", "food", none, 0, ""⟩]).2 _
      (by simp) rfl,
   (C8_import_normalization "u1" [⟨"Tea", "drink", none, 5, ""⟩]).2 _
      (by simp) rfl⟩

/-- C9: an import payload that is not an array is rejected before any remote
call — `handleImport` makes no remote insert, leaves the item collection
exactly unchanged, and surfaces an error toast. -/
theorem C9_import_reject_non_array (u : String) (items : List Item) :
    handleImport .notArray u items =
      { items := items, remoteInserts := [], toast := .error } :=
  rfl

/-- C10: applying a DELETE event for an id removes every element carrying
that id (duplicates included); when no element carries it the collection is
left exactly unchanged; and delete is idempotent. -/
theorem C10_delete_purges_all (s : List Item) (x : String) :
    (∀ i ∈ applyDelete s x, i.id ≠ x) ∧
    ((∀ i ∈ s, i.id ≠ x) → applyDelete s x = s) ∧
    applyDelete (applyDelete s x) x = applyDelete s x := by
  refine ⟨?_, ?_, ?_⟩
  · intro i hi
    have := List.of_mem_filter hi
    simpa using this
  · intro h
    apply List.filter_eq_self.mpr
    intro i hi
    simpa using h i hi
  · apply List.filter_eq_self.mpr
    intro i hi
    have := List.of_mem_filter hi
    simpa using this

/-- C10, witness: deleting id `b` from a store holding a duplicated id `a`
purges nothing it should not, leaves the store unchanged when the id is
absent, and is idempotent. -/
theorem C10_delete_purges_all_witness :
    (∀ i ∈ applyDelete [⟨"a", "Milk", 0, 1⟩, ⟨"a", "Milk", 0, 1⟩] "b",
      i.id ≠ "b") ∧
    applyDelete [⟨"a", "Milk", 0, 1⟩, ⟨"a", "Milk", 0, 1⟩] "b" =
      [⟨"a", "Milk", 0, 1⟩, ⟨"a", "Milk", 0, 1⟩] ∧
    applyDelete (applyDelete [⟨"a", "Milk", 0, 1⟩, ⟨"a", "Milk", 0, 1⟩] "b")
        "b" =
      applyDelete [⟨"a", "Milk", 0, 1⟩, ⟨"a", "Milk", 0, 1⟩] "b" := by
  obtain ⟨h1, h2, h3⟩ :=
    C10_delete_purges_all [⟨"a", "Milk", 0, 1⟩, ⟨"a", "Milk", 0, 1⟩] "b"
  exact ⟨h1, h2 (by decide), h3⟩

end ExpiryTracker
